import Mathlib

/-!
Verification of the chapter audio-synthesis pipeline of the audiobook-api
repository.  The Python sources (`app/services/kokoro_service.py`,
`app/routes/tts.py`, `app/routes/epub_tts.py`) are shallowly embedded.

Time representation: the engine emits PCM at a fixed 24000 Hz, the silence
buffer is `int(0.15 * 24000) = 3600` samples, and every duration in the
pipeline is `len(audio) / 24000` seconds.  All times are therefore exact
integer multiples of one *tick* = 1/24000 s, and the embedding measures
time in ticks (float representation error is abstracted away): 0.15 s is
3600 ticks, 1 ms is 24 ticks, and `round(x, 3)` becomes rounding a tick
count to the nearest multiple of 24 (half to even, as Python rounds).
PCM buffers are represented by their sample counts; the external Telegram
blob store and the neural TTS engine are parameters (`upload`, `resolve`,
`Pipe`); Python exceptions are an explicit `PyResult`.
-/

namespace AudiobookApi

/-- Whitespace as matched by Python `\s` and `str.strip()` (ASCII range:
space, tab, newline, carriage return, vertical tab, form feed). -/
def pySpace (c : Char) : Bool :=
  c == ' ' || c == '\t' || c == '\n' || c == '\r' || c == Char.ofNat 11 || c == Char.ofNat 12

/-- Python `str.strip()`. -/
def pyStripList (l : List Char) : List Char :=
  ((l.dropWhile pySpace).reverse.dropWhile pySpace).reverse

/-- Python `str.strip()` on strings. -/
def pyStrip (s : String) : String :=
  ⟨pyStripList s.data⟩

/-- `text.replace(chr(10), chr(32))` character map. -/
def newlineToSpace (c : Char) : Char :=
  if c == '\n' then ' ' else c

/-- Sentence-terminal punctuation of the regex class `[.!?]`. -/
def isSentEnd (c : Char) : Bool :=
  c == '.' || c == '!' || c == '?'

/-- Whether the last consumed character (head of the reversed fragment) is
sentence-terminal: the lookbehind of the splitting regex. -/
def lastIsSentEnd : List Char → Bool
  | p :: _ => isSentEnd p
  | [] => false

/-- One left-to-right pass implementing `re.split` of the pattern
"whitespace run preceded by sentence-terminal punctuation"
(`kokoro_service.generate_full_chapter`, line 48): a split happens at each
maximal whitespace run whose immediately preceding character is `.`, `!` or
`?`.  `acc` holds the current fragment reversed; the Bool is true while the
whitespace run of a match is being consumed. -/
def reSplitGo : Bool → List Char → List Char → List (List Char)
  | _, acc, [] => [acc.reverse]
  | true, acc, c :: rest =>
    if pySpace c then reSplitGo true acc rest
    else reSplitGo false [c] rest
  | false, acc, c :: rest =>
    if pySpace c && lastIsSentEnd acc then
      acc.reverse :: reSplitGo true [] rest
    else reSplitGo false (c :: acc) rest

/-- Sentence segmentation of the single-chapter path
(`kokoro_service.generate_full_chapter`): newlines collapsed to spaces,
the whole text stripped, then split after sentence-terminal punctuation
followed by whitespace. -/
def kokoroSplit (text : String) : List String :=
  (reSplitGo false [] (pyStripList (text.data.map newlineToSpace))).map fun l => ⟨l⟩

/-- Python `str.split` on a single-character separator: splits at every
occurrence, keeping empty fragments. -/
def splitOnCharGo (sep : Char) : List Char → List Char → List (List Char)
  | acc, [] => [acc.reverse]
  | acc, c :: rest =>
    if c == sep then acc.reverse :: splitOnCharGo sep [] rest
    else splitOnCharGo sep (c :: acc) rest

/-- Sentence segmentation of the chapter-range path
(`epub_tts.generate_chapter_audio_concurrent`, line 363):
`[s.strip() + chr(46) for s in text_content.split(chr(46)) if s.strip()]`. -/
def epubSplitSentences (text_content : String) : List String :=
  (((splitOnCharGo '.' [] text_content.data).map fun l => (⟨l⟩ : String)).filter
      fun s => pyStrip s ≠ "").map fun s => pyStrip s ++ "."

/-- Python `round(x, 3)` acting on a time in ticks (1/24000 s): round to the
nearest millisecond, i.e. the nearest multiple of 24 ticks, half to even.
All rounded times stay exact (float representation error is abstracted). -/
def roundMs (t : ℕ) : ℕ :=
  let f := t / 24
  let r := t % 24
  24 * (if r < 12 then f else if 12 < r then f + 1 else if f % 2 = 0 then f else f + 1)

/-- Fixed output sample rate of the engine (`sample_rate = 24000`);
one sample lasts one tick. -/
def sample_rate : ℕ := 24000

/-- `np.zeros(int(0.15 * sample_rate))`: the inter-segment silence buffer,
3600 samples = 0.15 s. -/
def silence_samples : ℕ := 3600

/-- One raw audio segment yielded by the engine for a sentence: `gs` is the
engine's normalized text, `samples` the PCM sample count (`len(audio)`),
which is also its duration in ticks. -/
structure Chunk where
  gs : String
  samples : ℕ
deriving DecidableEq

/-- One element of the metadata list built by `generate_full_chapter`;
`start` and `end` are in ticks (always multiples of 24 = 1 ms). -/
structure TimingEntry where
  index : ℕ
  text : String
  start : ℕ
  «end» : ℕ
deriving DecidableEq

/-- Python exception model: a computation either returns or raises. -/
inductive PyResult (α : Type) where
  | ok (val : α)
  | exn (msg : String)
deriving DecidableEq

/-- The synthesis engine: given voice, speed (numerator/denominator pair is
irrelevant to the claims, kept as a ℕ pair to stay computable) and a
sentence, yield the raw audio segments, or raise (the `KPipeline` call is
external code). -/
def Pipe : Type :=
  String → ℕ × ℕ → String → PyResult (List Chunk)

/-- State of the accumulation loop in `generate_full_chapter` (lines 49-65).
`calls` and `durs` are instrumentation: the (voice, sentence) of each engine
invocation and each segment's duration in ticks. -/
structure LoopSt where
  calls : List (String × String)
  durs : List ℕ
  combined : List ℕ
  metadata : List TimingEntry
  current_time : ℕ
deriving DecidableEq

/-- The loop state before the first sentence. -/
def initSt : LoopSt :=
  ⟨[], [], [], [], 0⟩

/-- Body of the inner `for gs, ps, audio in generator` loop: record a
timing entry, append the audio and the silence buffer, advance the clock by
the segment duration plus 0.15 s (3600 ticks). -/
def stepChunk (i : ℕ) (st : LoopSt) (c : Chunk) : LoopSt :=
  { st with
    durs := st.durs ++ [c.samples]
    metadata := st.metadata ++
      [⟨i, pyStrip c.gs, roundMs st.current_time, roundMs (st.current_time + c.samples)⟩]
    combined := st.combined ++ [c.samples, silence_samples]
    current_time := st.current_time + c.samples + silence_samples }

/-- The outer `for i, sentence in enumerate(sentences)` loop: skip
whitespace-only fragments, otherwise invoke the engine on the sentence and
fold its segments; an engine exception aborts the loop (second component). -/
def runSentences (pipe : Pipe) (voice : String) (speed : ℕ × ℕ) :
    List (ℕ × String) → LoopSt → LoopSt × Option String
  | [], st => (st, none)
  | (i, sentence) :: rest, st =>
    if pyStrip sentence = "" then runSentences pipe voice speed rest st
    else
      let st1 := { st with calls := st.calls ++ [(voice, sentence)] }
      match pipe voice speed sentence with
      | .exn e => (st1, some e)
      | .ok chunks => runSentences pipe voice speed rest (chunks.foldl (stepChunk i) st1)

/-- Return value of `generate_full_chapter`: the encoded audio is identified
with its raw sample-count list (`None` when nothing was synthesized), plus
the metadata and the Telegram upload result.  `durs` is instrumentation. -/
structure ChapterResult where
  audio : Option (List ℕ)
  metadata : List TimingEntry
  tg_file_id : Option String
  durs : List ℕ
deriving DecidableEq

/-- The post-loop part of `generate_full_chapter` (lines 67-81): an engine
exception propagates; with no accumulated audio the function returns
`(None, [], ..., None)` without uploading; otherwise the assembled audio is
encoded and uploaded. -/
def assembleChapter (upload : List ℕ → Option String) (out : LoopSt × Option String) :
    List (String × String) × PyResult ChapterResult :=
  match out.2 with
  | some e => (out.1.calls, .exn e)
  | none =>
    if out.1.combined = [] then (out.1.calls, .ok ⟨none, [], none, []⟩)
    else (out.1.calls, .ok ⟨some out.1.combined, out.1.metadata, upload out.1.combined, out.1.durs⟩)

/-- `kokoro_service.generate_full_chapter` (lines 44-81): segment, loop over
sentences, then assemble/upload; `upload` abstracts `upload_to_telegram`,
which returns a file id or `None`.  The first component is the engine
invocation trace. -/
def generate_full_chapter (pipe : Pipe) (upload : List ℕ → Option String)
    (text voice : String) (speed : ℕ × ℕ) :
    List (String × String) × PyResult ChapterResult :=
  assembleChapter upload (runSentences pipe voice speed (kokoroSplit text).enum initSt)

/-- The character class `\w` of `slugify`'s regex (ASCII alphanumerics and
underscore; the inputs of interest are ASCII). -/
def wordChar (c : Char) : Bool :=
  c.isAlphanum || c == '_'

/-- `tts.slugify`: drop characters outside `[\w\s-]`, strip, lowercase, and
replace spaces by underscores. -/
def slugify (value : String) : String :=
  ⟨(pyStripList (value.data.filter fun c => wordChar c || pySpace c || c == '-')).map
    fun c => if c == ' ' then '_' else c.toLower⟩

/-- One row of the `chapters` table (`tts.init_db`). -/
structure Row where
  book_slug : String
  chapter_slug : String
  epub_item_id : String
  telegram_id : Option String
  metadata_json : List TimingEntry
deriving DecidableEq

/-- The `chapters` table, unique on (book_slug, epub_item_id). -/
abbrev DB := List Row

/-- The cache lookup `SELECT telegram_id, metadata_json FROM chapters WHERE
book_slug=? AND epub_item_id=?`. -/
def dbLookup (db : DB) (bs item : String) : Option Row :=
  db.find? fun r => r.book_slug == bs && r.epub_item_id == item

/-- `INSERT OR REPLACE INTO chapters ...`: the conflicting row (same
(book_slug, epub_item_id)) is deleted and the new row inserted. -/
def dbInsertOrReplace (db : DB) (r : Row) : DB :=
  (db.filter fun x => !(x.book_slug == r.book_slug && x.epub_item_id == r.epub_item_id)) ++ [r]

/-- The request body of POST /tts/chapter (`tts.ChapterRequest`). -/
structure ChapterRequest where
  text : String
  voice : String
  speed : ℕ × ℕ
  book_title : String
  chapter_name : String
  epub_item_id : String
deriving DecidableEq

/-- External collaborators of the route: the engine, `upload_to_telegram`
(file id or `None`) and `get_telegram_file_url` (url or `None`). -/
structure Env where
  pipe : Pipe
  upload : List ℕ → Option String
  resolve : String → Option String

/-- The two response shapes of POST /tts/chapter: the cached shape carries a
playable URL, the fresh shape the synthesized audio bytes. -/
inductive Response where
  | cached (audio_url : String) (metadata : List TimingEntry)
  | fresh (audio : List ℕ) (metadata : List TimingEntry)
deriving DecidableEq

/-- Result of one POST /tts/chapter call: the table afterwards, the HTTP
outcome, and the number of engine invocations performed by the call. -/
structure RouteResult where
  db : DB
  resp : PyResult Response
  engine_calls : ℕ
deriving DecidableEq

/-- The cache fast path of `post_chapter` (lines 150-158): a stored row with
a truthy telegram_id whose handle resolves to a URL.  Python truthiness
makes an empty-string telegram_id a miss. -/
def cacheHit (env : Env) (row : Option Row) : Option (String × List TimingEntry) :=
  match row with
  | none => none
  | some r =>
    match r.telegram_id with
    | none => none
    | some tid =>
      if tid = "" then none
      else
        match env.resolve tid with
        | none => none
        | some url => some (url, r.metadata_json)

/-- The synthesis path of `post_chapter` after a cache miss (lines
160-172): an engine exception propagates; a row is stored only when the
upload produced a truthy file id; the response is built with
`base64.b64encode(audio_bytes)`, which raises TypeError when `audio_bytes`
is `None`. -/
def freshPath (db : DB) (book_slug chapter_slug item : String)
    (out : List (String × String) × PyResult ChapterResult) : RouteResult :=
  match out.2 with
  | .exn e => ⟨db, .exn e, out.1.length⟩
  | .ok r =>
    let db1 :=
      match r.tg_file_id with
      | some fid =>
        if fid = "" then db
        else dbInsertOrReplace db ⟨book_slug, chapter_slug, item, some fid, r.metadata⟩
      | none => db
    match r.audio with
    | none => ⟨db1, .exn "TypeError: a bytes-like object is required, not NoneType", out.1.length⟩
    | some a => ⟨db1, .ok (.fresh a r.metadata), out.1.length⟩

/-- `tts.post_chapter` (lines 141-172): serve from the cache when the
stored handle resolves, otherwise synthesize, store and respond. -/
def post_chapter (env : Env) (db : DB) (req : ChapterRequest) : RouteResult :=
  match cacheHit env (dbLookup db (slugify req.book_title) req.epub_item_id) with
  | some (url, meta) => ⟨db, .ok (.cached url meta), 0⟩
  | none =>
    freshPath db (slugify req.book_title) (slugify req.chapter_name) req.epub_item_id
      (generate_full_chapter env.pipe env.upload req.text req.voice req.speed)

/-- `epub_tts.get_adaptive_batch_size` (lines 95-109), as a function of the
probed device class (`get_macbook_model`: "air", "pro" or "unknown") and
the on-battery flag. -/
def get_adaptive_batch_size (model : String) (on_battery : Bool) : ℕ :=
  if model == "air" && on_battery then 2
  else if model == "air" then 3
  else if model == "pro" && on_battery then 4
  else if model == "pro" then 6
  else 3

/-- One call of `TemperatureMonitor.should_throttle` (epub_tts lines
317-327) as a step function: given the escalation counter and the probed
temperature (`none` models an unavailable reading; Python truthiness sends
a 0.0 reading to the else-branch as well), return the new counter and the
returned boolean.  The else-branch computes `max(0, count - 1)`, which is
truncated ℕ subtraction. -/
def should_throttle_step (max_temp : ℚ) (count : ℕ) (temp : Option ℚ) : ℕ × Bool :=
  match temp with
  | some t =>
    if t ≠ 0 ∧ max_temp < t then (count + 1, decide (3 < count + 1))
    else (count - 1, false)
  | none => (count - 1, false)

/-- Iterated `should_throttle` calls over a list of probed readings:
final counter and the boolean returned by each call, in order. -/
def monitorSignals (max_temp : ℚ) (count : ℕ) : List (Option ℚ) → ℕ × List Bool
  | [] => (count, [])
  | r :: rs =>
    let s := should_throttle_step max_temp count r
    let rest := monitorSignals max_temp s.1 rs
    (rest.1, s.2 :: rest.2)

/-! Concrete collaborators used as witnesses. -/

/-- A deterministic test engine: every sentence synthesizes into a single
one-second segment whose normalized text is the sentence itself. -/
def pipe0 : Pipe := fun _ _ s => .ok [⟨s, 24000⟩]

/-- The registered voice set offered by the repository frontends. -/
def registeredVoices : List String :=
  ["af_heart", "af_bella", "af_sky", "am_adam", "am_michael"]

/-- Modelled from the spec: the underlying KPipeline engine (the external
`kokoro` package, not under src/) accepts a fixed registered voice set and
raises when handed any other voice; registered voices synthesize normally
via `f`. -/
def specEnginePipe (voices : List String) (f : String → List Chunk) : Pipe :=
  fun voice _ s => if voice ∈ voices then .ok (f s) else .exn "invalid voice"

/-- An upload that always succeeds with handle fid1. -/
def upload0 : List ℕ → Option String := fun _ => some "fid1"

/-- An upload that always fails (`upload_to_telegram` returned `None`). -/
def uploadFail : List ℕ → Option String := fun _ => none

/-- Handle resolution that succeeds exactly on fid1. -/
def resolve0 : String → Option String := fun fid => if fid = "fid1" then some "url1" else none

/-- Handle resolution that always fails (`get_telegram_file_url` `None`). -/
def resolveFail : String → Option String := fun _ => none

/-- Normal collaborators: working engine, upload and resolution. -/
def env0 : Env := ⟨pipe0, upload0, resolve0⟩

/-- Collaborators whose blob upload fails. -/
def envUploadFail : Env := ⟨pipe0, uploadFail, resolve0⟩

/-- Collaborators whose handle resolution fails. -/
def envResolveFail : Env := ⟨pipe0, upload0, resolveFail⟩

/-- A one-sentence chapter request. -/
def req0 : ChapterRequest := ⟨"Hello.", "af_heart", (1, 1), "book", "ch", "item1"⟩

/-- The chapter result `pipe0`/`upload0` produce for `req0`. -/
def result0 : ChapterResult :=
  ⟨some [24000, 3600], [⟨0, "Hello.", 0, 24000⟩], some "fid1", [24000]⟩

/-- The chapter result `pipe0`/`uploadFail` produce for `req0`. -/
def resultNoUpload : ChapterResult :=
  ⟨some [24000, 3600], [⟨0, "Hello.", 0, 24000⟩], none, [24000]⟩

/-- A pre-existing cache row for `req0`'s identity whose stored handle is
oldfid. -/
def rowOld : Row :=
  ⟨"book", "ch", "item1", some "oldfid", []⟩

/-- Duration of one timing entry (end minus start), in ticks. -/
def entryDur (e : TimingEntry) : ℕ :=
  e.«end» - e.start

/-- Sum of the durations of all timing entries, in ticks. -/
def sumEntryDurations (meta : List TimingEntry) : ℕ :=
  (meta.map entryDur).sum

/-- The Timeline Builder exactly as the spec words it: each segment gets
start = running clock and end = start + duration (both rounded to
milliseconds), after which the clock advances by duration + 0.15 s. -/
def specTimeline (i : ℕ) (t : ℕ) : List Chunk → List TimingEntry
  | [] => []
  | c :: cs =>
    ⟨i, pyStrip c.gs, roundMs t, roundMs (t + c.samples)⟩ ::
      specTimeline i (t + c.samples + silence_samples) cs

/-- The audio-assembly invariant of the accumulation loop: the assembled
sample count equals the segment samples plus one silence buffer per
segment, and there is one timing entry per segment. -/
def SumInv (st : LoopSt) : Prop :=
  st.combined.sum = st.durs.sum + st.durs.length * silence_samples ∧
    st.metadata.length = st.durs.length

/-! Helper lemmas about the accumulation loop. -/

theorem foldl_stepChunk_calls (i : ℕ) :
    ∀ (cs : List Chunk) (st : LoopSt), (cs.foldl (stepChunk i) st).calls = st.calls := by
  intro cs
  induction cs with
  | nil => intro st; rfl
  | cons c cs ih => intro st; rw [List.foldl_cons, ih]; rfl

theorem runSentences_calls_prop (pipe : Pipe) (voice : String) (speed : ℕ × ℕ)
    (P : String × String → Prop) (hP : ∀ s, pyStrip s ≠ "" → P (voice, s)) :
    ∀ (xs : List (ℕ × String)) (st : LoopSt), (∀ p ∈ st.calls, P p) →
      ∀ p ∈ (runSentences pipe voice speed xs st).1.calls, P p := by
  intro xs
  induction xs with
  | nil => intro st hst; simpa [runSentences] using hst
  | cons a rest ih =>
    obtain ⟨i, s⟩ := a
    intro st hst
    by_cases hs : pyStrip s = ""
    · simpa [runSentences, hs] using ih st hst
    · have hst1 : ∀ p ∈ st.calls ++ [(voice, s)], P p := by
        intro p hp
        rcases List.mem_append.1 hp with h | h
        · exact hst p h
        · rw [List.mem_singleton.1 h]; exact hP s hs
      cases hpipe : pipe voice speed s with
      | exn e => simpa [runSentences, hs, hpipe] using hst1
      | ok chunks =>
        have := ih (chunks.foldl (stepChunk i) { st with calls := st.calls ++ [(voice, s)] })
          (by rw [foldl_stepChunk_calls]; exact hst1)
        simpa [runSentences, hs, hpipe] using this

theorem runSentences_calls_prefix (pipe : Pipe) (voice : String) (speed : ℕ × ℕ) :
    ∀ (xs : List (ℕ × String)) (st : LoopSt),
      ∃ l, (runSentences pipe voice speed xs st).1.calls = st.calls ++ l := by
  intro xs
  induction xs with
  | nil => intro st; exact ⟨[], by simp [runSentences]⟩
  | cons a rest ih =>
    obtain ⟨i, s⟩ := a
    intro st
    by_cases hs : pyStrip s = ""
    · simpa [runSentences, hs] using ih st
    · cases hpipe : pipe voice speed s with
      | exn e => exact ⟨[(voice, s)], by simp [runSentences, hs, hpipe]⟩
      | ok chunks =>
        obtain ⟨l, hl⟩ := ih (chunks.foldl (stepChunk i) { st with calls := st.calls ++ [(voice, s)] })
        rw [foldl_stepChunk_calls] at hl
        exact ⟨(voice, s) :: l, by simp [runSentences, hs, hpipe, hl]⟩

theorem runSentences_calls_nonempty (pipe : Pipe) (voice : String) (speed : ℕ × ℕ) :
    ∀ (xs : List (ℕ × String)) (st : LoopSt), (∃ p ∈ xs, pyStrip p.2 ≠ "") →
      st.calls.length + 1 ≤ (runSentences pipe voice speed xs st).1.calls.length := by
  intro xs
  induction xs with
  | nil => intro st h; simp at h
  | cons a rest ih =>
    obtain ⟨i, s⟩ := a
    intro st h
    by_cases hs : pyStrip s = ""
    · have hrest : ∃ p ∈ rest, pyStrip p.2 ≠ "" := by
        obtain ⟨p, hp, hpne⟩ := h
        rcases List.mem_cons.1 hp with rfl | hp
        · exact absurd hs hpne
        · exact ⟨p, hp, hpne⟩
      simpa [runSentences, hs] using ih st hrest
    · cases hpipe : pipe voice speed s with
      | exn e => simp [runSentences, hs, hpipe]
      | ok chunks =>
        obtain ⟨l, hl⟩ :=
          runSentences_calls_prefix pipe voice speed rest
            (chunks.foldl (stepChunk i) { st with calls := st.calls ++ [(voice, s)] })
        rw [foldl_stepChunk_calls] at hl
        simp [runSentences, hs, hpipe, hl]

theorem stepChunk_SumInv (i : ℕ) (st : LoopSt) (c : Chunk) (h : SumInv st) :
    SumInv (stepChunk i st c) := by
  obtain ⟨h1, h2⟩ := h
  constructor
  · simp only [stepChunk, List.sum_append, List.length_append, List.sum_cons, List.sum_nil,
      List.length_cons, List.length_nil, silence_samples] at h1 ⊢
    omega
  · simp [stepChunk, h2]

theorem foldl_stepChunk_SumInv (i : ℕ) :
    ∀ (cs : List Chunk) (st : LoopSt), SumInv st → SumInv (cs.foldl (stepChunk i) st) := by
  intro cs
  induction cs with
  | nil => intro st h; exact h
  | cons c cs ih => intro st h; rw [List.foldl_cons]; exact ih _ (stepChunk_SumInv i st c h)

theorem runSentences_SumInv (pipe : Pipe) (voice : String) (speed : ℕ × ℕ) :
    ∀ (xs : List (ℕ × String)) (st : LoopSt), SumInv st →
      SumInv (runSentences pipe voice speed xs st).1 := by
  intro xs
  induction xs with
  | nil => intro st h; simpa [runSentences] using h
  | cons a rest ih =>
    obtain ⟨i, s⟩ := a
    intro st h
    by_cases hs : pyStrip s = ""
    · simpa [runSentences, hs] using ih st h
    · cases hpipe : pipe voice speed s with
      | exn e =>
        have : SumInv { st with calls := st.calls ++ [(voice, s)] } := h
        simpa [runSentences, hs, hpipe] using this
      | ok chunks =>
        have h1 : SumInv { st with calls := st.calls ++ [(voice, s)] } := h
        have := ih (chunks.foldl (stepChunk i) { st with calls := st.calls ++ [(voice, s)] })
          (foldl_stepChunk_SumInv i chunks _ h1)
        simpa [runSentences, hs, hpipe] using this

theorem foldl_stepChunk_timeline (i : ℕ) :
    ∀ (cs : List Chunk) (st : LoopSt),
      (cs.foldl (stepChunk i) st).metadata = st.metadata ++ specTimeline i st.current_time cs ∧
        (cs.foldl (stepChunk i) st).current_time =
          st.current_time + (cs.map fun c => c.samples + silence_samples).sum := by
  intro cs
  induction cs with
  | nil => intro st; simp [specTimeline]
  | cons c cs ih =>
    intro st
    obtain ⟨h1, h2⟩ := ih (stepChunk i st c)
    constructor
    · rw [List.foldl_cons, h1, specTimeline]
      simp [stepChunk]
    · rw [List.foldl_cons, h2]
      simp [stepChunk]
      ring

theorem generate_calls (pipe : Pipe) (upload : List ℕ → Option String)
    (text voice : String) (speed : ℕ × ℕ) :
    (generate_full_chapter pipe upload text voice speed).1 =
      (runSentences pipe voice speed (kokoroSplit text).enum initSt).1.calls := by
  unfold generate_full_chapter assembleChapter
  cases h2 : (runSentences pipe voice speed (kokoroSplit text).enum initSt).2 with
  | none => simp only [h2]; split <;> rfl
  | some e => simp [h2]

theorem find?_append_left_none {α} (p : α → Bool) :
    ∀ (l1 l2 : List α), (∀ x ∈ l1, p x = false) → (l1 ++ l2).find? p = l2.find? p := by
  intro l1
  induction l1 with
  | nil => intro l2 _; rfl
  | cons a l1 ih =>
    intro l2 h
    have ha : p a = false := h a (List.mem_cons_self a l1)
    simp only [List.cons_append, List.find?, ha]
    exact ih l2 fun x hx => h x (List.mem_cons_of_mem a hx)

theorem dbLookup_insertOrReplace (db : DB) (r : Row) :
    dbLookup (dbInsertOrReplace db r) r.book_slug r.epub_item_id = some r := by
  unfold dbLookup dbInsertOrReplace
  rw [find?_append_left_none]
  · simp [List.find?]
  · intro x hx
    have h := List.of_mem_filter hx
    simp only [Bool.not_eq_true'] at h
    exact h

/-! Claim theorems. -/

/-- Claim C1, counterexample: on a chapter with a single 1 s segment the
decoded audio is 27600 ticks (1.15 s), while the claimed identity
`total = sum of TimingEntry durations + (n-1) x 0.15 s` predicts 24000
ticks (1 s): the discrepancy is a whole silence unit, far outside rounding
tolerance, so the (n-1) trailing-silence policy is not the implemented
one. -/
theorem claim_C1_counterexample :
    (generate_full_chapter pipe0 upload0 "Hi." "af_heart" (1, 1)).2 =
        .ok ⟨some [24000, 3600], [⟨0, "Hi.", 0, 24000⟩], some "fid1", [24000]⟩ ∧
      ¬ ([24000, 3600] : List ℕ).sum =
          sumEntryDurations [⟨0, "Hi.", 0, 24000⟩] +
            (([⟨0, "Hi.", 0, 24000⟩] : List TimingEntry).length - 1) * silence_samples := by
  decide

/-- Claim C1 (amended): the total decoded audio duration equals the sum of
all segment durations plus n x 0.15 s where n is the number of segments
(= number of TimingEntries): the implementation keeps one consistent
trailing-silence policy, namely a 0.15 s silence after every segment,
including the final one.  Stated in ticks of 1/24000 s (3600 ticks =
0.15 s), which is the exact form of the seconds identity. -/
theorem claim_C1_total_duration (pipe : Pipe) (upload : List ℕ → Option String)
    (text voice : String) (speed : ℕ × ℕ) (r : ChapterResult) (l : List ℕ)
    (hok : (generate_full_chapter pipe upload text voice speed).2 = .ok r)
    (haud : r.audio = some l) :
    l.sum = r.durs.sum + r.durs.length * silence_samples ∧
      r.metadata.length = r.durs.length := by
  have hinv := runSentences_SumInv pipe voice speed (kokoroSplit text).enum initSt
    ⟨rfl, rfl⟩
  unfold generate_full_chapter assembleChapter at hok
  cases h2 : (runSentences pipe voice speed (kokoroSplit text).enum initSt).2 with
  | some e => rw [h2] at hok; simp at hok
  | none =>
    rw [h2] at hok
    by_cases hc : (runSentences pipe voice speed (kokoroSplit text).enum initSt).1.combined = []
    · rw [if_pos hc] at hok
      simp at hok
      subst hok
      simp at haud
    · rw [if_neg hc] at hok
      simp at hok
      obtain ⟨i1, i2⟩ := hinv
      subst hok
      simp at haud
      subst haud
      exact ⟨i1, i2⟩

theorem claim_C1_witness :
    ([24000, 3600] : List ℕ).sum =
        ([24000] : List ℕ).sum + ([24000] : List ℕ).length * silence_samples ∧
      ([⟨0, "Hi.", 0, 24000⟩] : List TimingEntry).length = ([24000] : List ℕ).length :=
  claim_C1_total_duration pipe0 upload0 "Hi." "af_heart" (1, 1)
    ⟨some [24000, 3600], [⟨0, "Hi.", 0, 24000⟩], some "fid1", [24000]⟩ [24000, 3600]
    (by decide) rfl

/-- Claim C3: starting from an empty metadata list and running clock t, the
timeline built by the loop body assigns each segment start = clock and
end = start + duration (both rounded to milliseconds, i.e. multiples of
24 ticks) and advances the clock by duration + 0.15 s, exactly as
`specTimeline` words the spec; the witness instantiates the 1.000 s /
0.800 s scenario yielding entries (0, 24000) = {0 s, 1 s} and
(27600, 46800) = {1.15 s, 1.95 s}. -/
theorem claim_C3_timeline (i t : ℕ) (cs : List Chunk) (st : LoopSt)
    (hmeta : st.metadata = []) (htime : st.current_time = t) :
    (cs.foldl (stepChunk i) st).metadata = specTimeline i t cs ∧
      (cs.foldl (stepChunk i) st).current_time =
        t + (cs.map fun c => c.samples + silence_samples).sum := by
  obtain ⟨h1, h2⟩ := foldl_stepChunk_timeline i cs st
  rw [hmeta, htime] at h1
  rw [htime] at h2
  exact ⟨by simpa using h1, h2⟩

theorem claim_C3_witness :
    (([⟨"A", 24000⟩, ⟨"B", 19200⟩] : List Chunk).foldl (stepChunk 0) initSt).metadata =
        specTimeline 0 0 [⟨"A", 24000⟩, ⟨"B", 19200⟩] ∧
      specTimeline 0 0 [⟨"A", 24000⟩, ⟨"B", 19200⟩] =
        [⟨0, "A", 0, 24000⟩, ⟨0, "B", 27600, 46800⟩] :=
  ⟨(claim_C3_timeline 0 0 [⟨"A", 24000⟩, ⟨"B", 19200⟩] initSt rfl rfl).1, by decide⟩

/-- Claim C4, counterexample: the chapter-range synthesis path does not
implement the claimed segmentation: it splits only on periods and
re-appends a period to each stripped fragment, so the canonical example
text does not yield the three claimed sentences on that path. -/
theorem claim_C4_counterexample :
    epubSplitSentences "Hello world. How are you? Fine!" ≠
      ["Hello world.", "How are you?", "Fine!"] := by
  decide

/-- Claim C4 (amended): in the single-chapter path, segmentation collapses
newlines, splits after sentence-terminal punctuation followed by
whitespace, and the synthesis loop skips empty or whitespace-only
fragments (every engine call receives a fragment that is nonempty after
stripping); the example text yields exactly the 3 claimed sentences there.
The chapter-range path instead splits on periods alone, dropping empty
fragments and appending a period to each fragment, and yields only 2
(mutated) fragments on the example. -/
theorem claim_C4_segmentation (pipe : Pipe) (upload : List ℕ → Option String)
    (text voice : String) (speed : ℕ × ℕ) (p : String × String)
    (hp : p ∈ (generate_full_chapter pipe upload text voice speed).1) :
    pyStrip p.2 ≠ "" ∧
      kokoroSplit "Hello world. How are you? Fine!" =
        ["Hello world.", "How are you?", "Fine!"] ∧
      epubSplitSentences "Hello world. How are you? Fine!" =
        ["Hello world.", "How are you? Fine!."] := by
  refine ⟨?_, by decide, by decide⟩
  rw [generate_calls] at hp
  exact runSentences_calls_prop pipe voice speed (fun q => pyStrip q.2 ≠ "")
    (fun _ hs => hs) (kokoroSplit text).enum initSt
    (by intro q hq; simp [initSt] at hq) p hp

theorem claim_C4_witness :
    pyStrip (("af_heart", "Hello.") : String × String).2 ≠ "" ∧
      kokoroSplit "Hello world. How are you? Fine!" =
        ["Hello world.", "How are you?", "Fine!"] ∧
      epubSplitSentences "Hello world. How are you? Fine!" =
        ["Hello world.", "How are you? Fine!."] :=
  claim_C4_segmentation pipe0 upload0 "Hello." "af_heart" (1, 1)
    ("af_heart", "Hello.") (by decide)

/-- Claim C5, counterexample: requesting the unregistered voice xx_invalid
is not rejected before any engine call: the service performs no voice
validation, so the engine (modelled from the spec with the fixed registered
voice set) is invoked exactly once — with the invalid voice — and the
failure is the engine's own exception, not a pre-synthesis InvalidInput. -/
theorem claim_C5_counterexample :
    (generate_full_chapter (specEnginePipe registeredVoices fun s => [⟨s, 24000⟩]) upload0
        "Hello." "xx_invalid" (1, 1)).1 = [("xx_invalid", "Hello.")] ∧
      (generate_full_chapter (specEnginePipe registeredVoices fun s => [⟨s, 24000⟩]) upload0
        "Hello." "xx_invalid" (1, 1)).2 = .exn "invalid voice" := by
  decide

/-- Claim C5 (amended): an invalid voice is never silently replaced by a
fallback — every engine invocation the chapter synthesis performs uses
exactly the voice of the request — but the rejection of an unregistered
voice happens inside the engine on the first synthesis call (one engine
invocation occurs), not before any engine call. -/
theorem claim_C5_no_voice_fallback (pipe : Pipe) (upload : List ℕ → Option String)
    (text voice : String) (speed : ℕ × ℕ) (p : String × String)
    (hp : p ∈ (generate_full_chapter pipe upload text voice speed).1) :
    p.1 = voice := by
  rw [generate_calls] at hp
  exact runSentences_calls_prop pipe voice speed (fun q => q.1 = voice)
    (fun _ _ => rfl) (kokoroSplit text).enum initSt
    (by intro q hq; simp [initSt] at hq) p hp

theorem claim_C5_witness :
    (("af_heart", "Hello.") : String × String).1 = "af_heart" :=
  claim_C5_no_voice_fallback pipe0 upload0 "Hello." "af_heart" (1, 1)
    ("af_heart", "Hello.") (by decide)

/-! Helper lemmas about the route's synthesis path. -/

theorem freshPath_engine_calls (db : DB) (bs cs item : String)
    (out : List (String × String) × PyResult ChapterResult) :
    (freshPath db bs cs item out).engine_calls = out.1.length := by
  unfold freshPath
  cases h : out.2 with
  | exn e => rfl
  | ok r => cases hA : r.audio <;> simp [hA]

theorem freshPath_not_cached (db : DB) (bs cs item : String)
    (out : List (String × String) × PyResult ChapterResult) (url : String)
    (meta : List TimingEntry) :
    (freshPath db bs cs item out).resp ≠ .ok (.cached url meta) := by
  unfold freshPath
  cases h : out.2 with
  | exn e => simp
  | ok r => cases hA : r.audio <;> simp [hA]

theorem freshPath_db_of_upload_none (db : DB) (bs cs item : String)
    (out : List (String × String) × PyResult ChapterResult) (r : ChapterResult)
    (hok : out.2 = .ok r) (hup : r.tg_file_id = none) :
    (freshPath db bs cs item out).db = db := by
  unfold freshPath
  simp only [hok, hup]
  cases hA : r.audio <;> simp [hA]

theorem freshPath_db_of_upload_some (db : DB) (bs cs item : String)
    (out : List (String × String) × PyResult ChapterResult) (r : ChapterResult) (fid : String)
    (hok : out.2 = .ok r) (hup : r.tg_file_id = some fid) (hne : fid ≠ "") :
    (freshPath db bs cs item out).db =
      dbInsertOrReplace db ⟨bs, cs, item, some fid, r.metadata⟩ := by
  unfold freshPath
  simp only [hok, hup, if_neg hne]
  cases hA : r.audio <;> simp [hA]

theorem monitorSignals_replicate (t : ℚ) (ht : t ≠ 0 ∧ 85 < t) :
    ∀ (k c : ℕ), monitorSignals 85 c (List.replicate k (some t)) =
      (c + k, (List.range k).map fun j => decide (3 < c + j + 1)) := by
  intro k
  induction k with
  | zero => intro c; simp [monitorSignals]
  | succ k ih =>
    intro c
    rw [List.replicate_succ]
    simp only [monitorSignals, should_throttle_step]
    rw [if_pos ht, ih (c + 1)]
    simp only [Prod.mk.injEq]
    constructor
    · omega
    · rw [List.range_succ_eq_map, List.map_cons, List.map_map]
      congr 1
      apply List.map_congr_left
      intro j _
      simp only [Function.comp_apply]
      rw [decide_eq_decide]
      omega

/-- Claim C2: after one successful synthesize-and-cache call (cache miss,
successful synthesis, truthy upload id, row stored), a second call for the
same chapter identity with no external state change (the stored handle
still resolves) is served entirely from the cache: the response is the
cached one, the table is unchanged, and the engine is invoked zero
times. -/
theorem claim_C2_cache_short_circuit (env : Env) (db : DB) (req : ChapterRequest)
    (r : ChapterResult) (fid url : String)
    (hmiss : cacheHit env (dbLookup db (slugify req.book_title) req.epub_item_id) = none)
    (hgen : (generate_full_chapter env.pipe env.upload req.text req.voice req.speed).2 = .ok r)
    (hup : r.tg_file_id = some fid) (hne : fid ≠ "") (hres : env.resolve fid = some url) :
    post_chapter env (post_chapter env db req).db req =
      ⟨(post_chapter env db req).db, .ok (.cached url r.metadata), 0⟩ := by
  have hdb : (post_chapter env db req).db =
      dbInsertOrReplace db ⟨slugify req.book_title, slugify req.chapter_name,
        req.epub_item_id, some fid, r.metadata⟩ := by
    unfold post_chapter
    simp only [hmiss]
    exact freshPath_db_of_upload_some db _ _ _ _ r fid hgen hup hne
  have hlk := dbLookup_insertOrReplace db ⟨slugify req.book_title, slugify req.chapter_name,
    req.epub_item_id, some fid, r.metadata⟩
  rw [hdb]
  unfold post_chapter
  simp only [hlk, cacheHit, if_neg hne, hres]

theorem claim_C2_witness :
    post_chapter env0 (post_chapter env0 [] req0).db req0 =
      ⟨(post_chapter env0 [] req0).db, .ok (.cached "url1" result0.metadata), 0⟩ :=
  claim_C2_cache_short_circuit env0 [] req0 result0 "fid1" "url1"
    (by decide) (by decide) (by decide) (by decide) (by decide)

/-- Claim C6: when the cache misses, synthesis succeeds and the remote
upload fails (no file id), the request still succeeds with the synthesized
audio bytes while the chapters table is left unchanged — no cache record
is written, so a later request for the identity re-synthesizes. -/
theorem claim_C6_upload_failure (env : Env) (db : DB) (req : ChapterRequest)
    (r : ChapterResult) (l : List ℕ)
    (hmiss : cacheHit env (dbLookup db (slugify req.book_title) req.epub_item_id) = none)
    (hgen : (generate_full_chapter env.pipe env.upload req.text req.voice req.speed).2 = .ok r)
    (haud : r.audio = some l) (hup : r.tg_file_id = none) :
    post_chapter env db req =
      ⟨db, .ok (.fresh l r.metadata),
        (generate_full_chapter env.pipe env.upload req.text req.voice req.speed).1.length⟩ := by
  unfold post_chapter
  simp only [hmiss]
  unfold freshPath
  simp only [hgen, hup, haud]

theorem claim_C6_witness :
    post_chapter envUploadFail [] req0 =
      ⟨[], .ok (.fresh [24000, 3600] resultNoUpload.metadata),
        (generate_full_chapter envUploadFail.pipe envUploadFail.upload req0.text req0.voice
          req0.speed).1.length⟩ :=
  claim_C6_upload_failure envUploadFail [] req0 resultNoUpload [24000, 3600]
    (by decide) (by decide) rfl rfl

/-- Claim C7 (code bug): a text that segments into zero synthesizable
sentences (here: whitespace only) makes `generate_full_chapter` return a
`None` audio payload with empty metadata, and the /tts/chapter response
construction then crashes: `base64.b64encode(None)` raises TypeError, so
the request path does not complete without raising as the claim states. -/
theorem claim_C7_zero_sentences_crash :
    (generate_full_chapter env0.pipe env0.upload " " "af_heart" (1, 1)).2 =
        .ok ⟨none, [], none, []⟩ ∧
      post_chapter env0 [] ⟨" ", "af_heart", (1, 1), "book", "ch", "item1"⟩ =
        ⟨[], .exn "TypeError: a bytes-like object is required, not NoneType", 0⟩ := by
  decide

/-- Claim C8, counterexample: for the default device class (any probed
model other than air and pro, such as the literal "unknown" returned by
`get_macbook_model`), the adaptive batch size is 3 whether or not the
on-battery signal is set, so it is not strictly smaller on battery. -/
theorem claim_C8_counterexample :
    ¬ get_adaptive_batch_size "unknown" true < get_adaptive_batch_size "unknown" false := by
  decide

/-- Claim C8 (amended): for the two recognized MacBook device classes
(air and pro) the adaptive batch size computed on battery is strictly
smaller than when plugged in; for any other device class the default
branch returns 3 regardless of the on-battery signal. -/
theorem claim_C8_battery_batch (m : String) (h : m = "air" ∨ m = "pro") :
    get_adaptive_batch_size m true < get_adaptive_batch_size m false := by
  rcases h with rfl | rfl <;> decide

theorem claim_C8_witness :
    get_adaptive_batch_size "air" true < get_adaptive_batch_size "air" false :=
  claim_C8_battery_batch "air" (Or.inl rfl)

/-- Claim C9, counterexample: three consecutive above-threshold readings
(90 against the 85 threshold) starting from a fresh monitor do not cause
`should_throttle` to signal throttling — all three calls return False
(the counter reaches 3 and the code requires strictly more than 3). -/
theorem claim_C9_counterexample :
    monitorSignals 85 0 (List.replicate 3 (some 90)) = (3, [false, false, false]) := by
  decide

/-- Claim C9 (amended): starting from a fresh monitor, the k-th consecutive
above-threshold reading signals throttling exactly when the escalation
counter exceeds 3, i.e. from the fourth consecutive reading on, not the
third; and every below-threshold or unavailable (or zero, by Python
truthiness) reading decrements the counter by one — saturating at zero —
rather than resetting it, and never signals throttling. -/
theorem claim_C9_hysteresis (k : ℕ) (t : ℚ) (c : ℕ) (r : Option ℚ)
    (ht : 85 < t)
    (hr : ∀ t2, r = some t2 → ¬(t2 ≠ 0 ∧ 85 < t2)) :
    monitorSignals 85 0 (List.replicate k (some t)) =
        (k, (List.range k).map fun j => decide (3 < j + 1)) ∧
      should_throttle_step 85 c r = (c - 1, false) := by
  constructor
  · have h0 : t ≠ 0 := ne_of_gt (lt_trans (by norm_num) ht)
    have h := monitorSignals_replicate t ⟨h0, ht⟩ k 0
    simpa using h
  · cases r with
    | none => rfl
    | some t2 =>
      simp only [should_throttle_step]
      rw [if_neg (hr t2 rfl)]

theorem claim_C9_witness :
    monitorSignals 85 0 (List.replicate 4 (some 90)) =
        (4, (List.range 4).map fun j => decide (3 < j + 1)) ∧
      should_throttle_step 85 7 none = (7 - 1, false) :=
  claim_C9_hysteresis 4 90 7 none (by norm_num)
    (fun t2 h => Option.noConfusion h)

/-- Claim C10: when a stored cache record exists for the identity but its
remote handle fails to resolve to a URL, the /tts/chapter call does not
serve the stored record: it goes down the synthesis path (as many engine
invocations as the synthesis performs, at least one whenever the text has
a nonempty sentence), never answers with a cached response, keeps the old
row when the new upload fails, and replaces the row exactly when the new
upload returns a truthy file id. -/
theorem claim_C10_resolve_failure (env : Env) (db : DB) (req : ChapterRequest)
    (row : Row) (tid : String) (r : ChapterResult)
    (hrow : dbLookup db (slugify req.book_title) req.epub_item_id = some row)
    (htid : row.telegram_id = some tid) (hne : tid ≠ "")
    (hres : env.resolve tid = none)
    (hgen : (generate_full_chapter env.pipe env.upload req.text req.voice req.speed).2 = .ok r) :
    (post_chapter env db req).engine_calls =
        (generate_full_chapter env.pipe env.upload req.text req.voice req.speed).1.length ∧
      (∀ url meta, (post_chapter env db req).resp ≠ .ok (.cached url meta)) ∧
      (r.tg_file_id = none → (post_chapter env db req).db = db) ∧
      (∀ fid, r.tg_file_id = some fid → fid ≠ "" →
        dbLookup (post_chapter env db req).db (slugify req.book_title) req.epub_item_id =
          some ⟨slugify req.book_title, slugify req.chapter_name, req.epub_item_id,
            some fid, r.metadata⟩) ∧
      ((∃ p ∈ (kokoroSplit req.text).enum, pyStrip p.2 ≠ "") →
        1 ≤ (generate_full_chapter env.pipe env.upload req.text req.voice req.speed).1.length) := by
  have hmiss : cacheHit env (dbLookup db (slugify req.book_title) req.epub_item_id) = none := by
    rw [hrow]
    simp only [cacheHit, htid, if_neg hne, hres]
  have hpost : post_chapter env db req =
      freshPath db (slugify req.book_title) (slugify req.chapter_name) req.epub_item_id
        (generate_full_chapter env.pipe env.upload req.text req.voice req.speed) := by
    unfold post_chapter
    simp only [hmiss]
  refine ⟨?_, ?_, ?_, ?_, ?_⟩
  · rw [hpost]; exact freshPath_engine_calls _ _ _ _ _
  · intro url meta; rw [hpost]; exact freshPath_not_cached _ _ _ _ _ url meta
  · intro hup; rw [hpost]; exact freshPath_db_of_upload_none _ _ _ _ _ r hgen hup
  · intro fid hup hfne
    rw [hpost, freshPath_db_of_upload_some _ _ _ _ _ r fid hgen hup hfne]
    exact dbLookup_insertOrReplace db ⟨slugify req.book_title, slugify req.chapter_name,
      req.epub_item_id, some fid, r.metadata⟩
  · intro hex
    rw [generate_calls]
    have h := runSentences_calls_nonempty env.pipe req.voice req.speed
      (kokoroSplit req.text).enum initSt hex
    simpa [initSt] using h

theorem claim_C10_witness :
    (post_chapter envResolveFail [rowOld] req0).engine_calls =
        (generate_full_chapter envResolveFail.pipe envResolveFail.upload req0.text req0.voice
          req0.speed).1.length ∧
      dbLookup (post_chapter envResolveFail [rowOld] req0).db (slugify req0.book_title)
          req0.epub_item_id =
        some ⟨slugify req0.book_title, slugify req0.chapter_name, req0.epub_item_id,
          some "fid1", result0.metadata⟩ := by
  have h := claim_C10_resolve_failure envResolveFail [rowOld] req0 rowOld "oldfid" result0
    (by decide) rfl (by decide) rfl (by decide)
  exact ⟨h.1, h.2.2.2.1 "fid1" rfl (by decide)⟩

end AudiobookApi
